import Mathlib

/-!
Verification of the `send_correspondence_email` request handler
(src/EmailMultiAlternatives.py) against its natural-language specification.

The handler is shallowly embedded as a pure function from an environment —
the stored field rows of the correspondence entry, the outcome of the linked
purge-record lookup, the template-rendering outcome, the per-attachment
object-storage fetch outcomes, and the mail-transport outcome — to a result
record capturing the HTTP response, the final stored fields, the composed
mail message (if any was handed to the transport), the flash messages and
the log lines.
-/

namespace CorrespondenceEmail

/-- Stored entry fields: a list of (key, value) rows, as returned by
`email_entry.fields.all()`.  The Python code collapses them into a dict by
comprehension, so a later row with the same key shadows an earlier one. -/
abbrev Fields := List (String × String)

/-- `{field.key: field.value for field in ...}.get(k)` — last row with key `k`
wins, `none` when the key is absent. -/
def dictGet (fs : Fields) (k : String) : Option String :=
  (fs.reverse.find? (fun kv => kv.1 == k)).map (fun kv => kv.2)

/-- `dict.get(k, d)`: key-absence default (an empty-string value is returned
as is, unlike truthiness tests). -/
def getD (fs : Fields) (k d : String) : String :=
  (dictGet fs k).getD d

/-- Python truthiness of an optional string: present and non-empty. -/
def truthy : Option String → Bool
  | none => false
  | some s => s != ""

/-- Whether some row carries key `k` (`"status" in existing_fields`). -/
def containsKey (fs : Fields) (k : String) : Bool :=
  fs.any (fun kv => kv.1 == k)

/-- Update the first row whose key is `k` to value `v`; identity when absent. -/
def setFirst : Fields → String → String → Fields
  | [], _, _ => []
  | kv :: rest, k, v =>
    if kv.1 == k then (kv.1, v) :: rest else kv :: setFirst rest k v

/-- Update the last row whose key is `k` (the row the
`{field.key: field for field in ...}` dict retains) to value `v`. -/
def setLast (fs : Fields) (k v : String) : Fields :=
  (setFirst fs.reverse k v).reverse

/-- `required_fields = ["recipient_email", "subject", "email_date", "email_type"]`. -/
def required_fields : List String :=
  ["recipient_email", "subject", "email_date", "email_type"]

/-- Python `s.split(sep)` for a one-character separator, over the character
list: every occurrence of `sep` ends a (possibly empty) chunk. -/
def splitAux (sep : Char) : List Char → List Char → List (List Char)
  | [], cur => [cur.reverse]
  | c :: cs, cur =>
    if c = sep then cur.reverse :: splitAux sep cs []
    else splitAux sep cs (c :: cur)

/-- Python `s.split(sep)` for a one-character separator. -/
def pySplit (sep : Char) (s : String) : List String :=
  (splitAux sep s.data []).map (fun l => ⟨l⟩)

/-- Python `s.strip()`: drop leading and trailing whitespace. -/
def pyStrip (s : String) : String :=
  ⟨((s.data.dropWhile Char.isWhitespace).reverse.dropWhile Char.isWhitespace).reverse⟩

/-- Python `s.replace(a, b)` for one-character `a`, `b`. -/
def replaceChar (a b : Char) (s : String) : String :=
  ⟨s.data.map (fun c => if c = a then b else c)⟩

/-- Python `str.title()`: an alphabetic character is uppercased when the
previous character is not alphabetic, lowercased otherwise. -/
def titleAux : List Char → Bool → List Char
  | [], _ => []
  | c :: cs, prevAlpha =>
    (if c.isAlpha then (if prevAlpha then c.toLower else c.toUpper) else c)
      :: titleAux cs c.isAlpha

/-- Python `str.title()`. -/
def pyTitle (s : String) : String :=
  ⟨titleAux s.data false⟩

/-- `field.replace("_", " ").title()` — how a missing required field is shown. -/
def displayName (k : String) : String :=
  pyTitle (replaceChar '_' ' ' k)

/-- The missing-field display names, collected over all four required fields
in order (the loop does not short-circuit): a field is missing when
`not email_fields.get(field)`, i.e. absent or empty-valued. -/
def missingDisplay (fs : Fields) : List String :=
  (required_fields.filter (fun k => !(truthy (dictGet fs k)))).map displayName

/-- `f"Cannot send email. Missing required fields: {', '.join(missing_fields)}"`. -/
def missingFieldsMsg (fs : Fields) : String :=
  "Cannot send email. Missing required fields: "
    ++ String.intercalate ", " (missingDisplay fs)

/-- `f"Email cannot be sent. Current status: {current_status}. Only Draft emails can be sent."`. -/
def statusConflictMsg (st : String) : String :=
  "Email cannot be sent. Current status: " ++ st ++ ". Only Draft emails can be sent."

/-- `[email.strip() for email in s.split(",") if email.strip()] if s else []`. -/
def parseEmailList (s : String) : List String :=
  if s = "" then []
  else ((pySplit ',' s).map pyStrip).filter (fun e => e != "")

/-- The post-send field reconciliation (lines 256–299): for each of
`status`/`sent_date`/`sent_by`, the row the field dict retains is updated in
place when the key exists, otherwise a fresh row is queued; `bulk_create`
appends the queued rows. -/
def updateAfterSend (fs : Fields) (sentDate sentBy : String) : Fields :=
  let fs1 := if containsKey fs "status" then setLast fs "status" "Sent" else fs
  let fs2 := if containsKey fs "sent_date" then setLast fs1 "sent_date" sentDate else fs1
  let fs3 := if containsKey fs "sent_by" then setLast fs2 "sent_by" sentBy else fs2
  let creates :=
    (if containsKey fs "status" then [] else [("status", "Sent")])
      ++ (if containsKey fs "sent_date" then [] else [("sent_date", sentDate)])
      ++ (if containsKey fs "sent_by" then [] else [("sent_by", sentBy)])
  fs3 ++ creates

/-- Outcome of `Entry.objects.get(id=purge_record_id, ...)` for the linked
purge record: its field rows, or `Entry.DoesNotExist`. -/
inductive LookupOutcome
  | found (fields : Fields)
  | notFound
deriving DecidableEq, Repr

/-- How the enclosing try/except resolves: the body runs normally, the
initial entry lookup raises `Entry.DoesNotExist`, or an exception outside
the handled regions reaches the top-level `except Exception`. -/
inductive RequestOutcome
  | normal
  | entryMissing
  | unexpected (msg : String)
deriving DecidableEq, Repr

/-- Outcome of fetching one attachment from object storage: the bytes, a
`botocore ClientError`, or any other exception. -/
inductive FetchResult
  | ok (content : String)
  | s3Error (msg : String)
  | otherError (msg : String)
deriving DecidableEq, Repr

/-- One `DocumentMetadata` row together with the environment's outcome for
its S3 fetch and the `mimetypes.guess_type` answer for its filename. -/
structure AttachmentCase where
  filename : String
  is_deleted : Bool
  fetch : FetchResult
  guessedMime : Option String
deriving DecidableEq, Repr

/-- The message handed to `EmailMultiAlternatives(...)` plus its attached
alternatives and files. -/
structure EmailMessage where
  subject : String
  body : String
  from_email : String
  toRecipients : List String
  cc : Option (List String)
  bcc : Option (List String)
  reply_to : Option (List String)
  alternatives : List (String × String)
  attachments : List (String × String × String)
deriving DecidableEq, Repr

/-- The `purge_info` context dict: `none` models the empty dict `{}`. -/
structure PurgeInfo where
  id : String
  account : String
  provider : String
  facility : String
  status : String
deriving DecidableEq, Repr

/-- The environment of one request: everything the handler reads from the
request, the database, the template engine, object storage and the clock. -/
structure Env where
  emailId : String
  outcome : RequestOutcome
  emailFields : Fields
  modifiedAt0 : Nat
  nowTick : Nat
  purgeLookup : LookupOutcome
  prepException : Option String
  templateResult : Except String String
  stripTags : String → String
  attachments : List AttachmentCase
  sendResult : Except String Unit
  userFullName : String
  username : String
  defaultFromEmail : String
  nowDate : String
  nowIso : String
  isJson : Bool

/-- The response: a `JsonResponse` payload (each optional key of the
structured result), or a redirect (with or without a `purge_record_id`). -/
inductive Resp
  | json (success : Bool) (error message warning status sent_date : Option String)
  | redirectWithId (target : String) (purgeRecordId : String)
  | redirectPlain (target : String)
deriving DecidableEq, Repr

/-- Everything observable about one handled request: the response, the final
stored field rows and entry timestamp, the message given to the transport
(`none` when no send was attempted), whether the send was confirmed
successful, the resolved `purge_info` context, the collected attachment
error strings, the flash messages and the log lines (level, text). -/
structure HandlerResult where
  resp : Resp
  fields : Fields
  modifiedAt : Nat
  composed : Option EmailMessage
  sentOk : Bool
  purgeInfo : Option PurgeInfo
  attachmentErrors : List String
  flash : List (String × String)
  log : List (String × String)
deriving DecidableEq, Repr

/-- `redirect(...view_email_correspondence_for_purge, purge_record_id=...)`
when `email_fields.get("purge_record_id")` is truthy, otherwise the plain
listing redirect (the fall-through `return redirect(...)`). -/
def redirectAfter (fs : Fields) : Resp :=
  if truthy (dictGet fs "purge_record_id") then
    Resp.redirectWithId "bluebird:view_email_correspondence_for_purge"
      ((dictGet fs "purge_record_id").getD "")
  else
    Resp.redirectPlain "bluebird:view_internal_purge_records"

/-- Lines 93–111: resolve the linked purge record best-effort.  `purge_info`
starts as the empty dict; it is populated (with per-field "N/A" defaults)
only when `purge_record_id` is truthy and the lookup succeeds;
`Entry.DoesNotExist` is swallowed with `pass`, leaving it empty. -/
def resolvePurgeInfo (fs : Fields) (lookup : LookupOutcome) : Option PurgeInfo :=
  match dictGet fs "purge_record_id" with
  | none => none
  | some pid =>
    if pid = "" then none
    else
      match lookup with
      | LookupOutcome.found pf =>
        some { id := pid
               account := getD pf "account" "N/A"
               provider := getD pf "provider" "N/A"
               facility := getD pf "facility" "N/A"
               status := getD pf "status" "N/A" }
      | LookupOutcome.notFound => none

/-- Literal pieces of the inline fallback HTML fragment (lines 135–151). -/
def fbL1 : String :=
  "\n                <html>\n                    <body>\n                        <div style=\"font-family: Arial, sans-serif; padding: 20px;\">\n                            <h2>"

def fbL2 : String :=
  "</h2>\n                            <div style=\"white-space: pre-wrap;\">"

def fbL3 : String :=
  "</div>\n                            <hr style=\"margin: 20px 0;\">\n                            <p style=\"color: #666; font-size: 12px;\">\n                                This email was sent via the Purge Workflow System<br>\n                                Email Type: "

def fbL4 : String :=
  "<br>\n                                Priority: "

def fbL5 : String :=
  "<br>\n                                Sent by: "

def fbL6 : String :=
  "\n                            </p>\n                        </div>\n                    </body>\n                </html>\n                "

/-- The inline fallback HTML fragment of lines 135–151, as one f-string:
the literal pieces interleaved with subject, body, email type, priority and
the sending user. -/
def fallbackHtml (subject body emailType priority sentBy : String) : String :=
  fbL1 ++ (subject ++ (fbL2 ++ (body ++ (fbL3 ++ (emailType
    ++ (fbL4 ++ (priority ++ (fbL5 ++ (sentBy ++ fbL6)))))))))

/-- Lines 124–152: render the template, or fall back to the inline fragment
with the raw body as the text part, logging a warning.  Returns
(html_content, text_content, log lines produced). -/
def renderParts (env : Env) (fs : Fields) (subject body_content senderName : String) :
    String × String × List (String × String) :=
  match env.templateResult with
  | Except.ok html => (html, env.stripTags body_content, [])
  | Except.error terr =>
    (fallbackHtml subject body_content (getD fs "email_type" "N/A")
       (getD fs "priority" "Normal") senderName,
     body_content,
     [("warning", "Email template not found, using plain text: " ++ terr)])

/-- Lines 176–210, one attachment: fetch from S3, guess the MIME type
(defaulting to `application/octet-stream`), attach; a `ClientError` or any
other exception yields an error string instead. -/
def attachOne (a : AttachmentCase) : Except String (String × String × String) :=
  match a.fetch with
  | FetchResult.ok content =>
    let mime :=
      match a.guessedMime with
      | some m => if m = "" then "application/octet-stream" else m
      | none => "application/octet-stream"
    Except.ok (a.filename, content, mime)
  | FetchResult.s3Error e =>
    Except.error ("S3 error for " ++ a.filename ++ ": " ++ e)
  | FetchResult.otherError e =>
    Except.error ("Failed to attach " ++ a.filename ++ ": " ++ e)

/-- The attachment loop: successes are attached in order, failures are
collected as strings and the loop continues. -/
def processAttachments (cases : List AttachmentCase) :
    List (String × String × String) × List String :=
  cases.foldl
    (fun acc a =>
      match attachOne a with
      | Except.ok t => (acc.1 ++ [t], acc.2)
      | Except.error e => (acc.1, acc.2 ++ [e]))
    ([], [])

/-- Lines 309–312: the warning summarizing the first three attachment
failures plus a count of the rest. -/
def attachmentWarning (errs : List String) : String :=
  let base := "Email sent, but some attachments failed: "
    ++ String.intercalate "; " (errs.take 3)
  if errs.length > 3 then
    base ++ " and " ++ toString (errs.length - 3) ++ " more..."
  else base

/-- The shared error-reply shape: a JSON error for AJAX callers, otherwise a
flash message at the given level and the context-sensitive redirect. -/
def errorResult (env : Env) (level msg : String) (lg : List (String × String))
    (composed : Option EmailMessage) (attErrs : List String)
    (pInfo : Option PurgeInfo) : HandlerResult :=
  { resp := if env.isJson then Resp.json false (some msg) none none none none
            else redirectAfter env.emailFields
    fields := env.emailFields
    modifiedAt := env.modifiedAt0
    composed := composed
    sentOk := false
    purgeInfo := pInfo
    attachmentErrors := attErrs
    flash := if env.isJson then [] else [(level, msg)]
    log := lg }

/-- The handler `send_correspondence_email` (src/EmailMultiAlternatives.py,
lines 22–368), embedded as a pure function of the request environment. -/
def send_correspondence_email (env : Env) : HandlerResult :=
  match env.outcome with
  | RequestOutcome.entryMissing =>
    let errorMsg := "Email correspondence with ID " ++ env.emailId ++ " not found."
    { resp := if env.isJson then Resp.json false (some errorMsg) none none none none
              else Resp.redirectPlain "bluebird:view_internal_purge_records"
      fields := env.emailFields
      modifiedAt := env.modifiedAt0
      composed := none, sentOk := false, purgeInfo := none
      attachmentErrors := []
      flash := if env.isJson then [] else [("error", errorMsg)]
      log := [] }
  | RequestOutcome.unexpected e =>
    let errorMsg := "Error sending email: " ++ e
    { resp := if env.isJson then Resp.json false (some errorMsg) none none none none
              else Resp.redirectPlain "bluebird:view_internal_purge_records"
      fields := env.emailFields
      modifiedAt := env.modifiedAt0
      composed := none, sentOk := false, purgeInfo := none
      attachmentErrors := []
      flash := if env.isJson then [] else [("error", errorMsg)]
      log := [("error", "Unexpected error in send_correspondence_email: " ++ e)] }
  | RequestOutcome.normal =>
    let email_fields := env.emailFields
    let missing := missingDisplay email_fields
    if !missing.isEmpty then
      errorResult env "error" (missingFieldsMsg email_fields) [] none [] none
    else
      let current_status := getD email_fields "status" ""
      if current_status != "Draft" then
        errorResult env "warning" (statusConflictMsg current_status) [] none [] none
      else
        match env.prepException with
        | some e =>
          errorResult env "error" ("Error preparing email: " ++ e)
            [("error", "Error preparing email: " ++ e)] none [] none
        | none =>
          let recipient_email := getD email_fields "recipient_email" ""
          let subject := getD email_fields "subject" ""
          let body_content := getD email_fields "body_content" ""
          let sender_email := getD email_fields "sender_email" env.defaultFromEmail
          let cc_list := parseEmailList (getD email_fields "cc_emails" "")
          let bcc_list := parseEmailList (getD email_fields "bcc_emails" "")
          let purge_info := resolvePurgeInfo email_fields env.purgeLookup
          let senderName := if env.userFullName = "" then env.username else env.userFullName
          let parts := renderParts env email_fields subject body_content senderName
          let active := env.attachments.filter (fun a => !a.is_deleted)
          let processed := processAttachments active
          let attachment_errors := processed.2
          let attLog := attachment_errors.map (fun e => ("error", e))
          let email_message : EmailMessage :=
            { subject := subject
              body := parts.2.1
              from_email := sender_email
              toRecipients := [recipient_email]
              cc := if !cc_list.isEmpty then some cc_list else none
              bcc := if !bcc_list.isEmpty then some bcc_list else none
              reply_to := if sender_email != env.defaultFromEmail then some [sender_email] else none
              alternatives := [(parts.1, "text/html")]
              attachments := processed.1 }
          match env.sendResult with
          | Except.error serr =>
            errorResult env "error" ("Failed to send email: " ++ serr)
              (parts.2.2 ++ attLog ++ [("error", "Failed to send email: " ++ serr)])
              (some email_message) attachment_errors purge_info
          | Except.ok _ =>
            let newFields := updateAfterSend email_fields env.nowIso env.username
            let success_msg := "Email '" ++ subject
              ++ "' has been sent successfully to " ++ recipient_email ++ "."
            if !attachment_errors.isEmpty then
              let warning_msg := attachmentWarning attachment_errors
              { resp := if env.isJson then
                          Resp.json true none (some success_msg) (some warning_msg)
                            (some "Sent") (some env.nowIso)
                        else redirectAfter email_fields
                fields := newFields
                modifiedAt := env.nowTick
                composed := some email_message
                sentOk := true
                purgeInfo := purge_info
                attachmentErrors := attachment_errors
                flash := if env.isJson then []
                         else [("success", success_msg), ("warning", warning_msg)]
                log := parts.2.2 ++ attLog ++ [("warning", warning_msg)] }
            else
              { resp := if env.isJson then
                          Resp.json true none (some success_msg) none
                            (some "Sent") (some env.nowIso)
                        else redirectAfter email_fields
                fields := newFields
                modifiedAt := env.nowTick
                composed := some email_message
                sentOk := true
                purgeInfo := purge_info
                attachmentErrors := attachment_errors
                flash := if env.isJson then [] else [("success", success_msg)]
                log := parts.2.2 ++ attLog }

/-- `hay` contains `needle` as a contiguous substring. -/
def strContains (hay needle : String) : Prop :=
  ∃ a b, hay = a ++ (needle ++ b)

/-! ### Concrete request environments used as witnesses and counterexamples -/

/-- A fully valid Draft record, no attachments, template renders, transport
succeeds, AJAX caller. -/
def baseEnv : Env :=
  { emailId := "42"
    outcome := RequestOutcome.normal
    emailFields := [("recipient_email", "r@x.com"), ("subject", "Hello"),
                    ("email_date", "2024-01-01"), ("email_type", "Notice"),
                    ("status", "Draft"), ("body_content", "Body text")]
    modifiedAt0 := 0
    nowTick := 7
    purgeLookup := LookupOutcome.notFound
    prepException := none
    templateResult := Except.ok "<html>T</html>"
    stripTags := fun s => s
    attachments := []
    sendResult := Except.ok ()
    userFullName := "Jane Doe"
    username := "jane"
    defaultFromEmail := "noreply@sys.com"
    nowDate := "2024-01-02"
    nowIso := "2024-01-02T00:00:00"
    isJson := true }

/-- A record whose only stored field is `status = "Sent"`. -/
def envOnlySent : Env :=
  { baseEnv with emailFields := [("status", "Sent")] }

/-- A complete record already in status `Sent`. -/
def envSentStatus : Env :=
  { baseEnv with
    emailFields := [("recipient_email", "r@x.com"), ("subject", "Hello"),
                    ("email_date", "2024-01-01"), ("email_type", "Notice"),
                    ("status", "Sent"), ("body_content", "Body text")] }

/-- A Draft record missing `recipient_email` and `email_date`. -/
def envMissingTwo : Env :=
  { baseEnv with
    emailFields := [("subject", "S"), ("email_type", "T"), ("status", "Draft")] }

/-- A Draft record whose `recipient_email` is present but empty. -/
def envEmptyRecipient : Env :=
  { baseEnv with
    emailFields := [("recipient_email", ""), ("subject", "S"),
                    ("email_date", "D"), ("email_type", "T"),
                    ("status", "Draft")] }

/-- Four attachment rows: two fetchable, one soft-deleted, two failing. -/
def envAttachments : Env :=
  { baseEnv with
    attachments :=
      [{ filename := "a.pdf", is_deleted := false,
         fetch := FetchResult.ok "PDFBYTES", guessedMime := some "application/pdf" },
       { filename := "b.doc", is_deleted := false,
         fetch := FetchResult.s3Error "NoSuchKey", guessedMime := some "application/msword" },
       { filename := "c.txt", is_deleted := true,
         fetch := FetchResult.ok "X", guessedMime := none },
       { filename := "d.txt", is_deleted := false,
         fetch := FetchResult.otherError "corrupt", guessedMime := none }] }

/-- A record whose `sender_email` differs from the default sender. -/
def envSenderDiff : Env :=
  { baseEnv with
    emailFields := [("recipient_email", "r@x.com"), ("subject", "Hello"),
                    ("email_date", "2024-01-01"), ("email_type", "Notice"),
                    ("status", "Draft"), ("body_content", "Body text"),
                    ("sender_email", "me@x.com")] }

/-- A record linked to purge record `77` whose lookup raises
`Entry.DoesNotExist`. -/
def envPurgeMissing : Env :=
  { baseEnv with
    emailFields := [("recipient_email", "r@x.com"), ("subject", "Hello"),
                    ("email_date", "2024-01-01"), ("email_type", "Notice"),
                    ("status", "Draft"), ("body_content", "Body text"),
                    ("purge_record_id", "77")]
    purgeLookup := LookupOutcome.notFound }

/-- A request in which an unexpected exception reaches the top level. -/
def envUnexpected : Env :=
  { baseEnv with outcome := RequestOutcome.unexpected "boom" }

/-- A request whose template rendering raises. -/
def envTemplateFail : Env :=
  { baseEnv with templateResult := Except.error "TemplateDoesNotExist" }

/-! ### Helper lemmas about the field dictionary and the post-send update -/

theorem find?_setFirst_self (l : Fields) (k v : String) :
    (setFirst l k v).find? (fun kv => kv.1 == k)
      = (l.find? (fun kv => kv.1 == k)).map (fun kv => (kv.1, v)) := by
  induction l with
  | nil => rfl
  | cons kv rest ih =>
    cases hb : (kv.1 == k) with
    | true => simp [setFirst, hb, List.find?]
    | false => simp [setFirst, hb, List.find?, ih]

theorem find?_setFirst_ne (l : Fields) (k k' v : String) (h : k ≠ k') :
    (setFirst l k' v).find? (fun kv => kv.1 == k)
      = l.find? (fun kv => kv.1 == k) := by
  induction l with
  | nil => rfl
  | cons kv rest ih =>
    cases hb : (kv.1 == k') with
    | true =>
      have hkv : kv.1 = k' := by simpa using hb
      have hbk : (kv.1 == k) = false := by
        rw [hkv]; exact beq_eq_false_iff_ne.mpr (Ne.symm h)
      simp [setFirst, hb, hbk, List.find?]
    | false =>
      cases hbk : (kv.1 == k) <;> simp [setFirst, hb, hbk, List.find?, ih]

theorem any_key_setFirst (l : Fields) (k k' v : String) :
    (setFirst l k' v).any (fun kv => kv.1 == k)
      = l.any (fun kv => kv.1 == k) := by
  induction l with
  | nil => rfl
  | cons kv rest ih =>
    cases hb : (kv.1 == k') <;> simp [setFirst, hb, ih]

theorem containsKey_setLast (fs : Fields) (k k' v : String) :
    containsKey (setLast fs k' v) k = containsKey fs k := by
  unfold containsKey setLast
  rw [List.any_reverse, any_key_setFirst, List.any_reverse]

theorem dictGet_setLast_self (fs : Fields) (k v : String)
    (h : containsKey fs k = true) :
    dictGet (setLast fs k v) k = some v := by
  unfold dictGet setLast
  rw [List.reverse_reverse, find?_setFirst_self]
  have hsome : (fs.reverse.find? (fun kv => kv.1 == k)).isSome := by
    rw [List.find?_isSome]
    obtain ⟨x, hx, hp⟩ := List.any_eq_true.mp h
    exact ⟨x, List.mem_reverse.mpr hx, hp⟩
  obtain ⟨kv0, hkv⟩ := Option.isSome_iff_exists.mp hsome
  simp [hkv]

theorem dictGet_setLast_ne (fs : Fields) (k k' v : String) (h : k ≠ k') :
    dictGet (setLast fs k' v) k = dictGet fs k := by
  unfold dictGet setLast
  rw [List.reverse_reverse, find?_setFirst_ne _ _ _ _ h]

theorem dictGet_append_of_none (fs gs : Fields) (k : String)
    (h : dictGet gs k = none) :
    dictGet (fs ++ gs) k = dictGet fs k := by
  unfold dictGet at *
  rw [List.reverse_append, List.find?_append]
  cases hf : gs.reverse.find? (fun kv => kv.1 == k) with
  | none => rw [Option.none_or]
  | some kv => rw [hf] at h; simp at h

theorem dictGet_append_of_some (fs gs : Fields) (k v : String)
    (h : dictGet gs k = some v) :
    dictGet (fs ++ gs) k = some v := by
  unfold dictGet at *
  rw [List.reverse_append, List.find?_append]
  cases hf : gs.reverse.find? (fun kv => kv.1 == k) with
  | none => rw [hf] at h; simp at h
  | some kv => rw [hf] at h; rw [Option.or_some]; exact h

theorem dictGet_of_not_contains (fs : Fields) (k : String)
    (h : containsKey fs k = false) :
    dictGet fs k = none := by
  unfold dictGet
  have hnone : fs.reverse.find? (fun kv => kv.1 == k) = none := by
    rw [List.find?_eq_none]
    intro x hx hp
    have : containsKey fs k = true :=
      List.any_eq_true.mpr ⟨x, List.mem_reverse.mp hx, hp⟩
    rw [this] at h; exact Bool.noConfusion h
  simp [hnone]

/-- After the post-send reconciliation the `status` row reads `"Sent"`,
whether it was updated in place or freshly created. -/
theorem dictGet_updateAfterSend_status (fs : Fields) (sd sb : String) :
    dictGet (updateAfterSend fs sd sb) "status" = some "Sent" := by
  have bq1 : (("sent_date" : String) == "status") = false := by decide
  have bq2 : (("sent_by" : String) == "status") = false := by decide
  have ne1 : ("status" : String) ≠ "sent_date" := by decide
  have ne2 : ("status" : String) ≠ "sent_by" := by decide
  unfold updateAfterSend
  cases h1 : containsKey fs "status" <;>
    cases h2 : containsKey fs "sent_date" <;>
      cases h3 : containsKey fs "sent_by" <;>
        simp only [h1, h2, h3, Bool.false_eq_true, if_true, if_false,
          ite_true, ite_false, List.nil_append] <;>
        first
        | (refine dictGet_append_of_some _ _ _ _ ?_
           simp [dictGet, List.find?, bq1, bq2]
           done)
        | (refine Eq.trans (dictGet_append_of_none _ _ _ ?_) ?_
           · simp [dictGet, List.find?, bq1, bq2]
           · repeat' first
               | rw [dictGet_setLast_ne _ _ _ _ ne1]
               | rw [dictGet_setLast_ne _ _ _ _ ne2]
             exact dictGet_setLast_self _ _ _
               (by (repeat' rw [containsKey_setLast]); assumption))

/-- After the post-send reconciliation the `sent_date` row reads the sent
timestamp, whether it was updated in place or freshly created. -/
theorem dictGet_updateAfterSend_sent_date (fs : Fields) (sd sb : String) :
    dictGet (updateAfterSend fs sd sb) "sent_date" = some sd := by
  have bq1 : (("status" : String) == "sent_date") = false := by decide
  have bq2 : (("sent_by" : String) == "sent_date") = false := by decide
  have ne1 : ("sent_date" : String) ≠ "sent_by" := by decide
  unfold updateAfterSend
  cases h1 : containsKey fs "status" <;>
    cases h2 : containsKey fs "sent_date" <;>
      cases h3 : containsKey fs "sent_by" <;>
        simp only [h1, h2, h3, Bool.false_eq_true, if_true, if_false,
          ite_true, ite_false, List.nil_append] <;>
        first
        | (refine dictGet_append_of_some _ _ _ _ ?_
           simp [dictGet, List.find?, bq1, bq2]
           done)
        | (refine Eq.trans (dictGet_append_of_none _ _ _ ?_) ?_
           · simp [dictGet, List.find?, bq1, bq2]
           · repeat' rw [dictGet_setLast_ne _ _ _ _ ne1]
             exact dictGet_setLast_self _ _ _
               (by (repeat' rw [containsKey_setLast]); assumption))

/-- After the post-send reconciliation the `sent_by` row reads the acting
user, whether it was updated in place or freshly created. -/
theorem dictGet_updateAfterSend_sent_by (fs : Fields) (sd sb : String) :
    dictGet (updateAfterSend fs sd sb) "sent_by" = some sb := by
  have bq1 : (("status" : String) == "sent_by") = false := by decide
  have bq2 : (("sent_date" : String) == "sent_by") = false := by decide
  unfold updateAfterSend
  cases h1 : containsKey fs "status" <;>
    cases h2 : containsKey fs "sent_date" <;>
      cases h3 : containsKey fs "sent_by" <;>
        simp only [h1, h2, h3, Bool.false_eq_true, if_true, if_false,
          ite_true, ite_false, List.nil_append] <;>
        first
        | (refine dictGet_append_of_some _ _ _ _ ?_
           simp [dictGet, List.find?, bq1, bq2]
           done)
        | (refine Eq.trans (dictGet_append_of_none _ _ _ ?_) ?_
           · simp [dictGet, List.find?, bq1, bq2]
           · exact dictGet_setLast_self _ _ _
               (by (repeat' rw [containsKey_setLast]); assumption))

theorem processAttachments_length_aux (l : List AttachmentCase)
    (acc : List (String × String × String) × List String) :
    (l.foldl (fun acc a =>
        match attachOne a with
        | Except.ok t => (acc.1 ++ [t], acc.2)
        | Except.error e => (acc.1, acc.2 ++ [e])) acc).1.length
      + (l.foldl (fun acc a =>
        match attachOne a with
        | Except.ok t => (acc.1 ++ [t], acc.2)
        | Except.error e => (acc.1, acc.2 ++ [e])) acc).2.length
      = acc.1.length + acc.2.length + l.length := by
  induction l generalizing acc with
  | nil => simp
  | cons a rest ih =>
    cases hao : attachOne a with
    | ok t =>
      simp only [List.foldl_cons, hao]
      rw [ih]
      simp
      omega
    | error e =>
      simp only [List.foldl_cons, hao]
      rw [ih]
      simp
      omega

/-- Attached files and failure strings partition the processed attachment
cases: successes + failures = total. -/
theorem processAttachments_length (l : List AttachmentCase) :
    (processAttachments l).1.length + (processAttachments l).2.length
      = l.length := by
  unfold processAttachments
  rw [processAttachments_length_aux]
  simp

/-! ### Claim theorems -/

/-- C1: the status-field mutation happens only after the transport send is
confirmed successful, and the three field writes (`status → "Sent"`,
`sent_date`, `sent_by` — each created if absent, updated in place if
present) plus the modification-timestamp touch are applied as one unit: the
final stored state is either the original fields untouched (in particular
whenever the send fails) or the fully reconciled fields with all three
values present — no partially applied state is observable. -/
theorem c1_status_update_atomic (env : Env) :
    ((send_correspondence_email env).sentOk = true
        ∧ (send_correspondence_email env).fields
            = updateAfterSend env.emailFields env.nowIso env.username
        ∧ (send_correspondence_email env).modifiedAt = env.nowTick
        ∧ dictGet (send_correspondence_email env).fields "status" = some "Sent"
        ∧ dictGet (send_correspondence_email env).fields "sent_date" = some env.nowIso
        ∧ dictGet (send_correspondence_email env).fields "sent_by" = some env.username)
      ∨ ((send_correspondence_email env).sentOk = false
        ∧ (send_correspondence_email env).fields = env.emailFields
        ∧ (send_correspondence_email env).modifiedAt = env.modifiedAt0) := by
  obtain ⟨emailId, outcome, emailFields, modifiedAt0, nowTick, purgeLookup, prepException,
    templateResult, stripTagsF, attachments, sendResult, userFullName, username,
    defaultFromEmail, nowDate, nowIso, isJson⟩ := env
  cases outcome with
  | entryMissing => right; exact ⟨rfl, rfl, rfl⟩
  | unexpected e => right; exact ⟨rfl, rfl, rfl⟩
  | normal =>
    cases hmd : (missingDisplay emailFields).isEmpty with
    | false =>
      right
      simp [send_correspondence_email, errorResult, hmd]
    | true =>
      cases hst : (getD emailFields "status" "" != "Draft") with
      | true =>
        right
        simp [send_correspondence_email, errorResult, hmd, hst]
      | false =>
        cases prepException with
        | some e =>
          right
          simp [send_correspondence_email, errorResult, hmd, hst]
        | none =>
          cases sendResult with
          | error s =>
            right
            simp [send_correspondence_email, errorResult, hmd, hst]
          | ok u =>
            cases u
            left
            cases hae : (processAttachments (attachments.filter (fun a => !a.is_deleted))).2.isEmpty with
            | false =>
              refine ⟨?_, ?_, ?_, ?_, ?_, ?_⟩ <;>
                simp [send_correspondence_email, hmd, hst, hae,
                  dictGet_updateAfterSend_status, dictGet_updateAfterSend_sent_date,
                  dictGet_updateAfterSend_sent_by]
            | true =>
              refine ⟨?_, ?_, ?_, ?_, ?_, ?_⟩ <;>
                simp [send_correspondence_email, hmd, hst, hae,
                  dictGet_updateAfterSend_status, dictGet_updateAfterSend_sent_date,
                  dictGet_updateAfterSend_sent_by]

/-- C2 (counterexample): a record whose only field is `status = "Sent"` has
status ≠ Draft, yet the caller receives the missing-required-fields error —
not the state-conflict error naming the status that the claim promises. -/
theorem c2_counterexample :
    (send_correspondence_email envOnlySent).resp
        = Resp.json false
            (some "Cannot send email. Missing required fields: Recipient Email, Subject, Email Date, Email Type")
            none none none none
      ∧ (send_correspondence_email envOnlySent).resp
          ≠ Resp.json false
              (some "Email cannot be sent. Current status: Sent. Only Draft emails can be sent.")
              none none none none := by
  exact ⟨by decide, by decide⟩

/-- C2 (amended): for every record that passes required-field validation and
whose status is not `"Draft"`, sending fails with the state-conflict error
naming the current status, no message is handed to the transport, and no
stored field is mutated. -/
theorem c2_state_conflict (env : Env)
    (h1 : env.outcome = RequestOutcome.normal)
    (h2 : missingDisplay env.emailFields = [])
    (h3 : getD env.emailFields "status" "" ≠ "Draft") :
    (send_correspondence_email env).composed = none
      ∧ (send_correspondence_email env).sentOk = false
      ∧ (send_correspondence_email env).fields = env.emailFields
      ∧ (send_correspondence_email env).modifiedAt = env.modifiedAt0
      ∧ (env.isJson = true →
          (send_correspondence_email env).resp
            = Resp.json false
                (some (statusConflictMsg (getD env.emailFields "status" "")))
                none none none none) := by
  have hb : (getD env.emailFields "status" "" != "Draft") = true :=
    bne_iff_ne.mpr h3
  refine ⟨?_, ?_, ?_, ?_, fun hj => ?_⟩ <;>
    simp [send_correspondence_email, errorResult, h1, h2, hb] <;>
    simp [hj]

/-- C2 (witness): a complete record in status `"Sent"`, queried by an AJAX
caller, receives exactly the promised structured state-conflict error. -/
theorem c2_state_conflict_witness :
    (send_correspondence_email envSentStatus).resp
      = Resp.json false
          (some "Email cannot be sent. Current status: Sent. Only Draft emails can be sent.")
          none none none none := by
  have h := c2_state_conflict envSentStatus rfl (by decide) (by decide)
  exact (h.2.2.2.2 rfl).trans (by decide)

/-- C3: when any of the four required fields is missing, every missing field
is collected (the loop does not short-circuit: each untruthy required field
appears in the list), the single error message joins them all, the send is
not attempted, and no stored field is mutated. -/
theorem c3_missing_fields_collected (env : Env)
    (h1 : env.outcome = RequestOutcome.normal)
    (h2 : missingDisplay env.emailFields ≠ []) :
    (send_correspondence_email env).composed = none
      ∧ (send_correspondence_email env).sentOk = false
      ∧ (send_correspondence_email env).fields = env.emailFields
      ∧ (env.isJson = true →
          (send_correspondence_email env).resp
            = Resp.json false (some (missingFieldsMsg env.emailFields))
                none none none none)
      ∧ (∀ k, k ∈ required_fields → truthy (dictGet env.emailFields k) = false →
          displayName k ∈ missingDisplay env.emailFields) := by
  have hb : (missingDisplay env.emailFields).isEmpty = false := by
    cases hm : missingDisplay env.emailFields with
    | nil => exact absurd hm h2
    | cons a l => rfl
  refine ⟨?_, ?_, ?_, fun hj => ?_, fun k hk ht => ?_⟩
  · simp [send_correspondence_email, errorResult, h1, hb]
  · simp [send_correspondence_email, errorResult, h1, hb]
  · simp [send_correspondence_email, errorResult, h1, hb]
  · simp [send_correspondence_email, errorResult, h1, hb, hj]
  · exact List.mem_map.mpr ⟨k, List.mem_filter.mpr ⟨hk, by simp [ht]⟩, rfl⟩

/-- C3 (witness): a record missing `recipient_email` and `email_date` gets
the single message listing both, and no send is attempted. -/
theorem c3_witness :
    (send_correspondence_email envMissingTwo).resp
        = Resp.json false
            (some "Cannot send email. Missing required fields: Recipient Email, Email Date")
            none none none none
      ∧ (send_correspondence_email envMissingTwo).composed = none := by
  have h := c3_missing_fields_collected envMissingTwo rfl (by decide)
  exact ⟨(h.2.2.2.1 rfl).trans (by decide), h.1⟩

/-- C6: cc/bcc parsing splits on commas, strips whitespace from each entry
and drops entries that are empty after stripping (the empty-input guard is
redundant: the pipeline already yields `[]`); in particular
`"a@x.com, , b@x.com"` parses to exactly `["a@x.com", "b@x.com"]`. -/
theorem c6_cc_bcc_parsing :
    (∀ s : String, parseEmailList s
        = ((pySplit ',' s).map pyStrip).filter (fun e => e != ""))
      ∧ (∀ s e, e ∈ parseEmailList s → e ≠ "")
      ∧ parseEmailList "a@x.com, , b@x.com" = ["a@x.com", "b@x.com"] := by
  refine ⟨?_, ?_, by decide⟩
  · intro s
    by_cases hs : s = ""
    · subst hs; decide
    · simp [parseEmailList, hs]
  · intro s e he
    by_cases hs : s = ""
    · rw [hs] at he; simp [parseEmailList] at he
    · rw [parseEmailList, if_neg hs] at he
      simpa using (List.mem_filter.mp he).2

/-- C6 (witness): a parsed entry of the concrete example is non-empty, and
the example parses as claimed. -/
theorem c6_witness :
    ("a@x.com" : String) ≠ ""
      ∧ parseEmailList "a@x.com, , b@x.com" = ["a@x.com", "b@x.com"] :=
  ⟨c6_cc_bcc_parsing.2.1 "a@x.com, , b@x.com" "a@x.com" (by decide),
   c6_cc_bcc_parsing.2.2⟩

/-- C8 (counterexample): an unexpected exception carrying detail `"boom"`
is surfaced to the caller as `"Error sending email: boom"` — the response
contains the exception's detail, contradicting the claim that the surfaced
message does not expose it. -/
theorem c8_counterexample :
    (send_correspondence_email envUnexpected).resp
        = Resp.json false (some "Error sending email: boom") none none none none
      ∧ strContains "Error sending email: boom" "boom" := by
  exact ⟨by decide, ⟨"Error sending email: ", "", by decide⟩⟩

/-- C8 (amended): every unexpected exception is caught at the top level of
the handler (the handler always produces a response, never propagating),
logged server-side, and surfaced to the caller as
`"Error sending email: " ++` the exception's string — a message that does
include the exception's details; no stored field is mutated. -/
theorem c8_unexpected_caught (env : Env) (e : String)
    (h : env.outcome = RequestOutcome.unexpected e) :
    (env.isJson = true →
        (send_correspondence_email env).resp
          = Resp.json false (some ("Error sending email: " ++ e)) none none none none)
      ∧ (env.isJson = false →
          (send_correspondence_email env).resp
              = Resp.redirectPlain "bluebird:view_internal_purge_records"
            ∧ (send_correspondence_email env).flash
              = [("error", "Error sending email: " ++ e)])
      ∧ (send_correspondence_email env).log
          = [("error", "Unexpected error in send_correspondence_email: " ++ e)]
      ∧ (send_correspondence_email env).fields = env.emailFields
      ∧ (send_correspondence_email env).sentOk = false := by
  refine ⟨fun hj => ?_, fun hj => ⟨?_, ?_⟩, ?_, ?_, ?_⟩ <;>
    simp [send_correspondence_email, h] <;>
    simp [hj]

/-- C8 (witness): a concrete unexpected exception is logged and answered
with the structured error embedding its text. -/
theorem c8_witness :
    (send_correspondence_email
        { baseEnv with outcome := RequestOutcome.unexpected "db exploded" }).log
        = [("error", "Unexpected error in send_correspondence_email: db exploded")]
      ∧ (send_correspondence_email
          { baseEnv with outcome := RequestOutcome.unexpected "db exploded" }).resp
        = Resp.json false (some "Error sending email: db exploded") none none none none := by
  have h := c8_unexpected_caught
    { baseEnv with outcome := RequestOutcome.unexpected "db exploded" } "db exploded" rfl
  exact ⟨h.2.2.1, h.1 rfl⟩

/-- C10: a required field that is present with an empty-string value is
treated as missing (presence is tested by truthiness, not key existence):
its display name — underscores replaced by spaces, then title-cased — joins
the missing-fields list, the validation error is returned, and nothing is
sent or mutated. -/
theorem c10_empty_required_value (env : Env) (k : String)
    (h1 : env.outcome = RequestOutcome.normal)
    (h2 : k ∈ required_fields)
    (h3 : dictGet env.emailFields k = some "") :
    displayName k ∈ missingDisplay env.emailFields
      ∧ (env.isJson = true →
          (send_correspondence_email env).resp
            = Resp.json false (some (missingFieldsMsg env.emailFields))
                none none none none)
      ∧ (send_correspondence_email env).composed = none
      ∧ (send_correspondence_email env).fields = env.emailFields := by
  have ht : truthy (dictGet env.emailFields k) = false := by rw [h3]; rfl
  have hmem : displayName k ∈ missingDisplay env.emailFields :=
    List.mem_map.mpr ⟨k, List.mem_filter.mpr ⟨h2, by simp [ht]⟩, rfl⟩
  have hb : (missingDisplay env.emailFields).isEmpty = false := by
    cases hm : missingDisplay env.emailFields with
    | nil => rw [hm] at hmem; exact absurd hmem (List.not_mem_nil _)
    | cons a l => rfl
  refine ⟨hmem, fun hj => ?_, ?_, ?_⟩ <;>
    simp [send_correspondence_email, errorResult, h1, hb] <;>
    simp [hj]

/-- C10 (witness): `recipient_email` present but empty is reported as
`"Recipient Email"` in the validation error. -/
theorem c10_witness :
    displayName "recipient_email" = "Recipient Email"
      ∧ displayName "recipient_email" ∈ missingDisplay envEmptyRecipient.emailFields
      ∧ (send_correspondence_email envEmptyRecipient).resp
          = Resp.json false
              (some "Cannot send email. Missing required fields: Recipient Email")
              none none none none := by
  have h := c10_empty_required_value envEmptyRecipient "recipient_email"
    rfl (by decide) (by decide)
  exact ⟨by decide, h.1, (h.2.1 rfl).trans (by decide)⟩

/-- C4: with the send succeeding, each failing attachment is recorded as a
string while processing continues, the message is handed to the transport
with exactly (non-deleted − failed) attachments, and the success response
carries the warning (first three failures plus a count of the rest) exactly
when at least one attachment failed. -/
theorem c4_attachment_failures (env : Env)
    (h1 : env.outcome = RequestOutcome.normal)
    (h2 : missingDisplay env.emailFields = [])
    (h3 : getD env.emailFields "status" "" = "Draft")
    (h4 : env.prepException = none)
    (h5 : env.sendResult = Except.ok ()) :
    (send_correspondence_email env).sentOk = true
      ∧ (send_correspondence_email env).attachmentErrors
          = (processAttachments (env.attachments.filter (fun a => !a.is_deleted))).2
      ∧ (send_correspondence_email env).composed.map (fun m => m.attachments.length)
          = some ((env.attachments.filter (fun a => !a.is_deleted)).length
              - (processAttachments (env.attachments.filter (fun a => !a.is_deleted))).2.length)
      ∧ ((processAttachments (env.attachments.filter (fun a => !a.is_deleted))).2 ≠ [] →
          env.isJson = true →
          (send_correspondence_email env).resp
            = Resp.json true none
                (some ("Email '" ++ getD env.emailFields "subject" ""
                  ++ "' has been sent successfully to "
                  ++ getD env.emailFields "recipient_email" "" ++ "."))
                (some (attachmentWarning
                  (processAttachments (env.attachments.filter (fun a => !a.is_deleted))).2))
                (some "Sent") (some env.nowIso))
      ∧ ((processAttachments (env.attachments.filter (fun a => !a.is_deleted))).2 = [] →
          env.isJson = true →
          (send_correspondence_email env).resp
            = Resp.json true none
                (some ("Email '" ++ getD env.emailFields "subject" ""
                  ++ "' has been sent successfully to "
                  ++ getD env.emailFields "recipient_email" "" ++ "."))
                none (some "Sent") (some env.nowIso)) := by
  have hb3 : (getD env.emailFields "status" "" != "Draft") = false := by simp [h3]
  have hsum := processAttachments_length (env.attachments.filter (fun a => !a.is_deleted))
  cases hae : (processAttachments (env.attachments.filter (fun a => !a.is_deleted))).2.isEmpty with
  | false =>
    refine ⟨?_, ?_, ?_, fun hne hj => ?_, fun heq hj => ?_⟩
    · simp [send_correspondence_email, h1, h2, hb3, h4, h5, hae]
    · simp [send_correspondence_email, h1, h2, hb3, h4, h5, hae]
    · simp [send_correspondence_email, h1, h2, hb3, h4, h5, hae]
      omega
    · simp [send_correspondence_email, h1, h2, hb3, h4, h5, hae, hj]
    · rw [heq] at hae; exact absurd hae (by simp)
  | true =>
    have heq : (processAttachments (env.attachments.filter (fun a => !a.is_deleted))).2 = [] :=
      List.isEmpty_iff.mp hae
    refine ⟨?_, ?_, ?_, fun hne hj => absurd heq hne, fun _ hj => ?_⟩
    · simp [send_correspondence_email, h1, h2, hb3, h4, h5, hae]
    · simp [send_correspondence_email, h1, h2, hb3, h4, h5, hae, heq]
    · simp [send_correspondence_email, h1, h2, hb3, h4, h5, hae]
      omega
    · simp [send_correspondence_email, h1, h2, hb3, h4, h5, hae, hj]

/-- C4 (witness): of three non-deleted attachments two fail (one S3 error,
one generic); the mail goes out with the one surviving attachment and the
success response carries the warning listing both failures. -/
theorem c4_witness :
    (send_correspondence_email envAttachments).composed.map (fun m => m.attachments.length)
        = some 1
      ∧ (send_correspondence_email envAttachments).resp
        = Resp.json true none
            (some "Email 'Hello' has been sent successfully to r@x.com.")
            (some "Email sent, but some attachments failed: S3 error for b.doc: NoSuchKey; Failed to attach d.txt: corrupt")
            (some "Sent") (some "2024-01-02T00:00:00") := by
  have h := c4_attachment_failures envAttachments rfl (by decide) (by decide) rfl rfl
  exact ⟨h.2.2.1.trans (by decide), (h.2.2.2.1 (by decide) rfl).trans (by decide)⟩

/-- C5: the composed message's Reply-To is `[sender]` exactly when the
effective sender (the record's `sender_email`, defaulting to the configured
default sender when the key is absent) differs from the default sender —
and it is set if and only if that inequality holds; the To list is exactly
the single recipient. -/
theorem c5_reply_to_iff (env : Env)
    (h1 : env.outcome = RequestOutcome.normal)
    (h2 : missingDisplay env.emailFields = [])
    (h3 : getD env.emailFields "status" "" = "Draft")
    (h4 : env.prepException = none) :
    (send_correspondence_email env).composed.map (fun m => m.reply_to)
        = some (if getD env.emailFields "sender_email" env.defaultFromEmail
                    != env.defaultFromEmail
                then some [getD env.emailFields "sender_email" env.defaultFromEmail]
                else none)
      ∧ (send_correspondence_email env).composed.map (fun m => m.reply_to.isSome)
        = some (getD env.emailFields "sender_email" env.defaultFromEmail
                  != env.defaultFromEmail)
      ∧ (send_correspondence_email env).composed.map (fun m => m.toRecipients)
        = some [getD env.emailFields "recipient_email" ""]
      ∧ (send_correspondence_email env).composed.map (fun m => m.toRecipients.length)
        = some 1 := by
  have hb3 : (getD env.emailFields "status" "" != "Draft") = false := by simp [h3]
  refine ⟨?_, ?_, ?_, ?_⟩ <;>
    (cases hs : env.sendResult with
     | error s =>
       cases hrt : (getD env.emailFields "sender_email" env.defaultFromEmail
           != env.defaultFromEmail) <;>
         simp [send_correspondence_email, errorResult, h1, h2, hb3, h4, hs, hrt]
     | ok u =>
       cases u
       cases hae : (processAttachments (env.attachments.filter (fun a => !a.is_deleted))).2.isEmpty <;>
         cases hrt : (getD env.emailFields "sender_email" env.defaultFromEmail
             != env.defaultFromEmail) <;>
           simp [send_correspondence_email, errorResult, h1, h2, hb3, h4, hs, hae, hrt])

/-- C5 (witness): with `sender_email = "me@x.com"` differing from the
default `"noreply@sys.com"`, Reply-To is `["me@x.com"]` and To is exactly
`["r@x.com"]`. -/
theorem c5_witness :
    (send_correspondence_email envSenderDiff).composed.map (fun m => m.reply_to)
        = some (some ["me@x.com"])
      ∧ (send_correspondence_email envSenderDiff).composed.map (fun m => m.toRecipients)
        = some ["r@x.com"] := by
  have h := c5_reply_to_iff envSenderDiff rfl (by decide) (by decide) rfl
  exact ⟨h.1.trans (by decide), h.2.2.1.trans (by decide)⟩

/-- C7 (counterexample): with `purge_record_id = "77"` present and the
linked-record lookup failing, the email context's `purge_info` stays the
empty dict — it is not the all-"N/A" record the claim promises. -/
theorem c7_counterexample :
    (send_correspondence_email envPurgeMissing).purgeInfo = none
      ∧ (send_correspondence_email envPurgeMissing).purgeInfo
          ≠ some { id := "77", account := "N/A", provider := "N/A",
                   facility := "N/A", status := "N/A" } := by
  exact ⟨by decide, by decide⟩

/-- C7 (amended): when `purge_record_id` is present (truthy) but the linked
record lookup raises `DoesNotExist`, the failure is swallowed — the request
proceeds to compose and send — and the `purge_info` context stays empty;
the per-field "N/A" defaults apply only when the lookup succeeds, to fields
missing from the fetched record. -/
theorem c7_lookup_swallowed (env : Env)
    (h1 : env.outcome = RequestOutcome.normal)
    (h2 : missingDisplay env.emailFields = [])
    (h3 : getD env.emailFields "status" "" = "Draft")
    (h4 : env.prepException = none)
    (h5 : truthy (dictGet env.emailFields "purge_record_id") = true)
    (h6 : env.purgeLookup = LookupOutcome.notFound) :
    (send_correspondence_email env).purgeInfo = none
      ∧ (send_correspondence_email env).composed.isSome = true
      ∧ (∀ pf pid, dictGet env.emailFields "purge_record_id" = some pid → pid ≠ "" →
          resolvePurgeInfo env.emailFields (LookupOutcome.found pf)
            = some { id := pid
                     account := getD pf "account" "N/A"
                     provider := getD pf "provider" "N/A"
                     facility := getD pf "facility" "N/A"
                     status := getD pf "status" "N/A" }) := by
  have hb3 : (getD env.emailFields "status" "" != "Draft") = false := by simp [h3]
  cases hpg : dictGet env.emailFields "purge_record_id" with
  | none => rw [hpg] at h5; exact absurd h5 (by simp [truthy])
  | some pid =>
    have hpid : pid ≠ "" := by
      rw [hpg] at h5
      simpa [truthy] using h5
    have hres : resolvePurgeInfo env.emailFields env.purgeLookup = none := by
      simp [resolvePurgeInfo, hpg, hpid, h6]
    refine ⟨?_, ?_, fun pf pid' hpg' hpid' => ?_⟩
    · cases hs : env.sendResult with
      | error s =>
        simp [send_correspondence_email, errorResult, h1, h2, hb3, h4, hs, hres]
      | ok u =>
        cases u
        cases hae : (processAttachments (env.attachments.filter (fun a => !a.is_deleted))).2.isEmpty <;>
          simp [send_correspondence_email, errorResult, h1, h2, hb3, h4, hs, hae, hres]
    · cases hs : env.sendResult with
      | error s =>
        simp [send_correspondence_email, errorResult, h1, h2, hb3, h4, hs]
      | ok u =>
        cases u
        cases hae : (processAttachments (env.attachments.filter (fun a => !a.is_deleted))).2.isEmpty <;>
          simp [send_correspondence_email, errorResult, h1, h2, hb3, h4, hs, hae]
    · have hpp : pid = pid' := Option.some.inj hpg'
      simp [resolvePurgeInfo, hpg, hpid, hpp, hpid']

/-- C7 (witness): the concrete failed-lookup request still composes a
message while its `purge_info` context is empty. -/
theorem c7_witness :
    (send_correspondence_email envPurgeMissing).purgeInfo = none
      ∧ (send_correspondence_email envPurgeMissing).composed.isSome = true := by
  have h := c7_lookup_swallowed envPurgeMissing rfl (by decide) (by decide) rfl
    (by decide) rfl
  exact ⟨h.1, h.2.1⟩

/-- The inline fallback fragment embeds each of its five dynamic values as a
contiguous substring. -/
theorem fallbackHtml_contains (s b t p u : String) :
    strContains (fallbackHtml s b t p u) s
      ∧ strContains (fallbackHtml s b t p u) b
      ∧ strContains (fallbackHtml s b t p u) t
      ∧ strContains (fallbackHtml s b t p u) p
      ∧ strContains (fallbackHtml s b t p u) u := by
  unfold strContains
  refine ⟨⟨fbL1, fbL2 ++ (b ++ (fbL3 ++ (t ++ (fbL4 ++ (p ++ (fbL5 ++ (u ++ fbL6))))))), rfl⟩,
    ⟨fbL1 ++ (s ++ fbL2), fbL3 ++ (t ++ (fbL4 ++ (p ++ (fbL5 ++ (u ++ fbL6))))),
      by simp [fallbackHtml, String.append_assoc]⟩,
    ⟨fbL1 ++ (s ++ (fbL2 ++ (b ++ fbL3))), fbL4 ++ (p ++ (fbL5 ++ (u ++ fbL6))),
      by simp [fallbackHtml, String.append_assoc]⟩,
    ⟨fbL1 ++ (s ++ (fbL2 ++ (b ++ (fbL3 ++ (t ++ fbL4))))), fbL5 ++ (u ++ fbL6),
      by simp [fallbackHtml, String.append_assoc]⟩,
    ⟨fbL1 ++ (s ++ (fbL2 ++ (b ++ (fbL3 ++ (t ++ (fbL4 ++ (p ++ fbL5))))))), fbL6,
      by simp [fallbackHtml, String.append_assoc]⟩⟩

/-- C9: when template rendering fails, the handler falls back to the inline
HTML fragment — which embeds the subject, body, email type, priority and
sending user — uses the raw `body_content` as the plain-text part, logs the
fallback at warning level, and still proceeds to compose and send. -/
theorem c9_template_fallback (env : Env) (terr : String)
    (h1 : env.outcome = RequestOutcome.normal)
    (h2 : missingDisplay env.emailFields = [])
    (h3 : getD env.emailFields "status" "" = "Draft")
    (h4 : env.prepException = none)
    (h5 : env.templateResult = Except.error terr) :
    (send_correspondence_email env).composed.map (fun m => m.body)
        = some (getD env.emailFields "body_content" "")
      ∧ (send_correspondence_email env).composed.map (fun m => m.alternatives)
        = some [(fallbackHtml (getD env.emailFields "subject" "")
                  (getD env.emailFields "body_content" "")
                  (getD env.emailFields "email_type" "N/A")
                  (getD env.emailFields "priority" "Normal")
                  (if env.userFullName = "" then env.username else env.userFullName),
                "text/html")]
      ∧ ("warning", "Email template not found, using plain text: " ++ terr)
          ∈ (send_correspondence_email env).log
      ∧ (send_correspondence_email env).composed.isSome = true
      ∧ strContains (fallbackHtml (getD env.emailFields "subject" "")
                  (getD env.emailFields "body_content" "")
                  (getD env.emailFields "email_type" "N/A")
                  (getD env.emailFields "priority" "Normal")
                  (if env.userFullName = "" then env.username else env.userFullName))
          (getD env.emailFields "subject" "")
      ∧ strContains (fallbackHtml (getD env.emailFields "subject" "")
                  (getD env.emailFields "body_content" "")
                  (getD env.emailFields "email_type" "N/A")
                  (getD env.emailFields "priority" "Normal")
                  (if env.userFullName = "" then env.username else env.userFullName))
          (getD env.emailFields "body_content" "") := by
  have hb3 : (getD env.emailFields "status" "" != "Draft") = false := by simp [h3]
  have hc := fallbackHtml_contains (getD env.emailFields "subject" "")
    (getD env.emailFields "body_content" "")
    (getD env.emailFields "email_type" "N/A")
    (getD env.emailFields "priority" "Normal")
    (if env.userFullName = "" then env.username else env.userFullName)
  refine ⟨?_, ?_, ?_, ?_, hc.1, hc.2.1⟩ <;>
    (cases hs : env.sendResult with
     | error s =>
       simp [send_correspondence_email, errorResult, renderParts,
         h1, h2, hb3, h4, h5, hs]
     | ok u =>
       cases u
       cases hae : (processAttachments (env.attachments.filter (fun a => !a.is_deleted))).2.isEmpty <;>
         simp [send_correspondence_email, errorResult, renderParts,
           h1, h2, hb3, h4, h5, hs, hae])

/-- C9 (witness): with a failing template the concrete request uses the raw
body as text part and logs the fallback warning. -/
theorem c9_witness :
    (send_correspondence_email envTemplateFail).composed.map (fun m => m.body)
        = some "Body text"
      ∧ ("warning", "Email template not found, using plain text: TemplateDoesNotExist")
          ∈ (send_correspondence_email envTemplateFail).log := by
  have h := c9_template_fallback envTemplateFail "TemplateDoesNotExist" rfl (by decide)
    (by decide) rfl rfl
  exact ⟨h.1.trans (by decide), h.2.2.1⟩

end CorrespondenceEmail
